import Mathlib

/-!
Verification of the auto-compile request coordinator of the CareerLift
repository (src/nextjs/hooks/useAutoCompile.ts).

The hook is embedded as an explicit state machine.  React-specific
plumbing is made explicit:

* `CState` carries every piece of mutable state of the hook: the React
  state variables (`previewImageUrl`, `pageCount`, `currentPage`,
  `compiling`, `compileError`, `lastCompileTime`) and the refs
  (`resumeData`, `selectedTemplate`, `hasPreview` for hasPreviewRef,
  `timerRef`, `abortRef`, `seq` for seqRef, `prevBlobUrl`).
* Blob URLs (createObjectURL) are modelled as consecutive resource ids
  handed out by `nextResourceId`; revoking a URL appends its id to
  `released`.  Debounce timers are modelled by ids from `nextTimerId`;
  an armed timer is `timerRef = some id`, clearTimeout sets it to
  `none`, and a `timerFire` event for an id that is no longer armed is
  a no-op (a cleared timeout never runs).
* AbortControllers are identified with the sequence number of the
  request they guard (exactly one controller per issued request);
  calling abort appends that id to `aborted`.
* Issued network requests are recorded in `requests`; the sidebar
  collapse events dispatched on window are counted by `sidebarEvents`.
* JavaScript number NaN can reach `pageCount` through parseInt, so
  `pageCount` is an `Option Int` with `none` playing the role of NaN.
* A change of the `resumeData` / `selectedTemplate` props re-runs the
  two effects of the hook exactly as React does: the debounce effect
  (lines 151-174) re-runs when either prop changed, running its
  cleanup (clearTimeout) first; the template-clear effect (lines
  177-190) re-runs when the template prop changed.
* The asynchronous completion of the axios call is a separate event
  (`respondSuccess` / `respondFailure`) carrying the sequence number of
  the request it answers, the `x-page-count` header, and for failures
  the shape of the error (a JSON body with an optional detail field, a
  non-JSON body, or no body at all plus the error message).
* The catch block is NOT atomic when a response body is present: line
  115 awaits the body text AFTER the staleness check of line 111 and
  BEFORE setCompileError, with no re-check.  The model therefore splits
  such a failure into two steps: `respondFailure` performs the
  synchronous checks and, when the request is current and a body is
  present, only records a pending body read (`pendingErrReads`);
  the later `resolveErrRead` event performs the error write
  unconditionally, followed by the finally block, which re-checks the
  sequence number at that later time before clearing the compiling
  flag.  A failure without a response body runs to completion in one
  event-loop turn and stays atomic.
-/

namespace CareerLift

/-- Shape of the body attached to a failed compile response: a JSON
object whose `detail` field may be present or absent, or a body that is
not parseable as JSON.  (`src/nextjs/hooks/useAutoCompile.ts` lines
113-120.) -/
inductive BodyKind where
  | jsonBody (detail : Option String)
  | rawBody
deriving DecidableEq

/-- A network request issued by `doCompile`: its sequence number, the
target page, and the document / template snapshot sent in the body
(`POST .../compile/preview?page=targetPage`). -/
structure Request where
  seq : Nat
  page : Nat
  doc : Nat
  template : String
deriving DecidableEq

/-- The complete mutable state of the `useAutoCompile` hook. -/
structure CState where
  resumeData : Option Nat
  selectedTemplate : Option String
  previewImageUrl : Option Nat
  pageCount : Option Int
  currentPage : Nat
  compiling : Bool
  compileError : Option String
  lastCompileTime : Option Unit
  hasPreview : Bool
  timerRef : Option Nat
  nextTimerId : Nat
  abortRef : Option Nat
  aborted : List Nat
  seq : Nat
  prevBlobUrl : Option Nat
  nextResourceId : Nat
  released : List Nat
  sidebarEvents : Nat
  requests : List Request
  pendingErrReads : List (Nat × BodyKind)
deriving DecidableEq

/-- Initial state of a freshly mounted hook (all useState initialisers
and ref initialisers of lines 30-44). -/
def initState : CState :=
  { resumeData := none
    selectedTemplate := none
    previewImageUrl := none
    pageCount := some 0
    currentPage := 0
    compiling := false
    compileError := none
    lastCompileTime := none
    hasPreview := false
    timerRef := none
    nextTimerId := 0
    abortRef := none
    aborted := []
    seq := 0
    prevBlobUrl := none
    nextResourceId := 0
    released := []
    sidebarEvents := 0
    requests := []
    pendingErrReads := [] }

/-- JavaScript `parseInt(s, 10)`: skip leading whitespace, read an
optional sign and then leading decimal digits; `none` models `NaN`
(no digits found). -/
def jsParseInt (s : String) : Option Int :=
  let cs := s.data.dropWhile (fun c => c.isWhitespace)
  let signDigits : Bool × List Char :=
    match cs with
    | [] => (false, [])
    | c :: rest =>
      if c = '-' then (true, rest)
      else if c = '+' then (false, rest)
      else (false, c :: rest)
  let digits := signDigits.2.takeWhile Char.isDigit
  if digits.isEmpty then none
  else
    let n : Nat := digits.foldl (fun a c => a * 10 + (c.toNat - 48)) 0
    some (if signDigits.1 then -(n : Int) else (n : Int))

/-- Page count computed from the `x-page-count` response header:
`parseInt(response.headers[x-page-count] || "1", 10)` (line 101).  A
missing header and an empty header are both falsy in JavaScript, so
both fall back to the string "1"; any other string goes to parseInt
unchanged and may produce NaN (`none`). -/
def parsePageCount (hdr : Option String) : Option Int :=
  let hv := match hdr with
    | none => "1"
    | some h => if h = "" then "1" else h
  jsParseInt hv

/-- Compile guard of `doCompile` (line 56): the request is only issued
when a document and a template are present and the template is not the
sentinel value "uploaded". -/
def guardOk (d : Option Nat) (t : Option String) : Bool :=
  match d, t with
  | some _, some tv => !(tv == "uploaded")
  | _, _ => false

/-- The synchronous prefix of `doCompile` (lines 51-68 plus the request
issue of lines 71-81): check the guard, abort the previous in-flight
controller, allocate a fresh controller and sequence number, set the
compiling flag, clear the error, and issue the network request. -/
def doCompile (page : Option Nat) (s : CState) : CState :=
  match s.resumeData, s.selectedTemplate with
  | some d, some t =>
    if t == "uploaded" then s
    else
      let targetPage := page.getD s.currentPage
      let s1 := match s.abortRef with
        | some c => { s with aborted := s.aborted ++ [c] }
        | none => s
      { s1 with
        abortRef := some (s1.seq + 1),
        seq := s1.seq + 1,
        compiling := true,
        compileError := none,
        requests := s1.requests ++ [⟨s1.seq + 1, targetPage, d, t⟩] }
  | _, _ => s

/-- clearTimeout of the pending debounce timer. -/
def clearTimer (s : CState) : CState := { s with timerRef := none }

/-- `triggerCompile` (lines 132-138): cancel the pending timer and
compile immediately for the current page. -/
def triggerCompile (s : CState) : CState := doCompile none (clearTimer s)

/-- `goToPage` (lines 141-148): set the current page, cancel the
pending timer and compile immediately for that page.  Note the page is
stored unconditionally, with no clamp against `pageCount`. -/
def goToPage (p : Nat) (s : CState) : CState :=
  doCompile (some p) (clearTimer { s with currentPage := p })

/-- Body of the debounce effect (lines 151-166): if the guard passes,
reset the current page to 0 and arm a fresh debounce timer; otherwise
return without arming anything. -/
def debounceEffectBody (s : CState) : CState :=
  match s.resumeData, s.selectedTemplate with
  | some _, some t =>
    if t == "uploaded" then s
    else
      { s with
        currentPage := 0,
        timerRef := some s.nextTimerId,
        nextTimerId := s.nextTimerId + 1 }
  | _, _ => s

/-- Body of the template-clear effect (lines 177-190): when the
template is absent or the sentinel "uploaded", revoke the current blob
URL and reset the preview, page count, current page, error and
timestamp. -/
def templateClearEffectBody (s : CState) : CState :=
  if s.selectedTemplate = none ∨ s.selectedTemplate = some "uploaded" then
    let s1 := match s.prevBlobUrl with
      | some u => { s with released := s.released ++ [u], prevBlobUrl := none }
      | none => s
    { s1 with
      previewImageUrl := none,
      hasPreview := false,
      pageCount := some 0,
      currentPage := 0,
      compileError := none,
      lastCompileTime := none }
  else s

/-- A re-render of the hook with new `resumeData` / `selectedTemplate`
props.  The refs are synced (lines 47-48); the debounce effect re-runs
(cleanup first, i.e. clearTimeout, then the body) when either dep
changed; the template-clear effect re-runs when the template changed. -/
def inputChange (d : Option Nat) (t : Option String) (s : CState) : CState :=
  let dChanged := d ≠ s.resumeData
  let tChanged := t ≠ s.selectedTemplate
  let s1 := { s with resumeData := d, selectedTemplate := t }
  let s2 := if dChanged ∨ tChanged then debounceEffectBody (clearTimer s1) else s1
  if tChanged then templateClearEffectBody s2 else s2

/-- The `finally` block of `doCompile` (lines 124-128): the compiling
flag is cleared only when the completing request is still the current
one. -/
def applyFinal (r : Nat) (s : CState) : CState :=
  if r = s.seq then { s with compiling := false } else s

/-- Completion of the axios call for request `r` with a success
response (lines 83-107 and the finally block).  An aborted controller
makes axios reject with a cancel error, so an aborted request takes the
silent-return path of line 110.  A stale request (sequence no longer
current) is discarded at line 84.  Otherwise the previous blob URL is
revoked, the fresh one installed, the page count parsed from the
header, and on the first success the sidebar-collapse event is
dispatched. -/
def handleSuccess (r : Nat) (hdr : Option String) (s : CState) : CState :=
  if r ∈ s.aborted then applyFinal r s
  else if r ≠ s.seq then s
  else
    let s1 := match s.prevBlobUrl with
      | some u => { s with released := s.released ++ [u] }
      | none => s
    let url := s1.nextResourceId
    let isFirst := !s1.hasPreview
    { s1 with
      prevBlobUrl := some url,
      nextResourceId := url + 1,
      previewImageUrl := some url,
      hasPreview := true,
      lastCompileTime := some (),
      pageCount := parsePageCount hdr,
      sidebarEvents := if isFirst then s1.sidebarEvents + 1 else s1.sidebarEvents,
      compiling := false }

/-- Error string computed by the catch block (lines 113-123):
`json.detail || "Compilation failed"` when a response body parses as
JSON, the fixed fallback when the body is present but not JSON, and
`err.message || "Compilation failed"` when there is no response body.
JavaScript `||` treats the empty string as falsy. -/
def computeError (body : Option BodyKind) (msg : Option String) : String :=
  match body with
  | some (BodyKind.jsonBody d) =>
    match d with
    | some t => if t = "" then "Compilation failed" else t
    | none => "Compilation failed"
  | some BodyKind.rawBody => "Compilation failed"
  | none =>
    match msg with
    | some m => if m = "" then "Compilation failed" else m
    | none => "Compilation failed"

/-- Rejection of the axios call for request `r` (lines 108-123): the
synchronous part of the catch block.  Aborted requests take the silent
cancel path of line 110; stale failures are discarded at line 111 (the
finally block then sees a non-current sequence and does nothing); a
current failure without a response body stores the error message and
clears compiling in the same turn (lines 122 and 125-127); a current
failure WITH a response body reaches the await of line 115: nothing
visible is mutated yet, only the pending body read is recorded — the
error write happens later, in `resolveErrRead`, with no further
staleness check. -/
def handleFailure (r : Nat) (body : Option BodyKind) (msg : Option String)
    (s : CState) : CState :=
  if r ∈ s.aborted then applyFinal r s
  else if r ≠ s.seq then s
  else
    match body with
    | none => { s with compileError := some (computeError none msg), compiling := false }
    | some b => { s with pendingErrReads := s.pendingErrReads ++ [(r, b)] }

/-- Resolution of the body read started at line 115 for request `r`.
The continuation stores the error string unconditionally (lines 117 and
119 run with no re-check of the sequence number after the await); the
finally block (lines 124-128) then runs at this later time and clears
the compiling flag only if `r` is still the current sequence.  A read
that was never started resolves to nothing. -/
def resolveErrRead (r : Nat) (b : BodyKind) (s : CState) : CState :=
  if (r, b) ∈ s.pendingErrReads then
    applyFinal r
      { s with
        pendingErrReads := s.pendingErrReads.erase (r, b),
        compileError := some (computeError (some b) none) }
  else s

/-- Unmount cleanup (lines 193-201): clear the timer, abort the
current controller, revoke the current blob URL. -/
def unmountStep (s : CState) : CState :=
  let s1 := { s with timerRef := none }
  let s2 := match s1.abortRef with
    | some c => { s1 with aborted := s1.aborted ++ [c] }
    | none => s1
  match s2.prevBlobUrl with
  | some u => { s2 with released := s2.released ++ [u] }
  | none => s2

/-- Expiry of the debounce timer with id `id`: it runs only if that
timer is still the armed one (clearTimeout prevents a cleared timer
from ever firing), nulls the ref (line 164) and compiles page 0
(line 165). -/
def timerFire (id : Nat) (s : CState) : CState :=
  if s.timerRef = some id then doCompile (some 0) (clearTimer s) else s

/-- The events a live (mounted) hook can experience. -/
inductive Event where
  | inputChange (d : Option Nat) (t : Option String)
  | timerFire (id : Nat)
  | trigger
  | goTo (p : Nat)
  | respondSuccess (r : Nat) (hdr : Option String)
  | respondFailure (r : Nat) (body : Option BodyKind) (msg : Option String)
  | resolveErrRead (r : Nat) (b : BodyKind)
deriving DecidableEq

/-- One step of the coordinator. -/
def step (e : Event) (s : CState) : CState :=
  match e with
  | Event.inputChange d t => inputChange d t s
  | Event.timerFire id => timerFire id s
  | Event.trigger => triggerCompile s
  | Event.goTo p => goToPage p s
  | Event.respondSuccess r hdr => handleSuccess r hdr s
  | Event.respondFailure r body msg => handleFailure r body msg s
  | Event.resolveErrRead r b => resolveErrRead r b s

/-- Run a list of events from the initial state. -/
def run (es : List Event) : CState := es.foldl (fun s e => step e s) initState

/-- The derived `isRecompiling` flag returned by the hook (line 209):
compiling while a preview is already displayed. -/
def isRecompiling (s : CState) : Bool := s.compiling && s.previewImageUrl.isSome

/-- Resource-ownership invariant of a live session.  The displayed
preview URL is exactly the owned blob URL; the has-preview ref tracks
whether one is owned; and since resource ids are handed out
consecutively, the owned resource (when present) is the most recently
created one and the revoked ids are precisely all earlier ones, each
exactly once.  `nextResourceId` equals the total number of successful
installs so far. -/
def Inv (s : CState) : Prop :=
  s.previewImageUrl = s.prevBlobUrl ∧
  s.hasPreview = s.prevBlobUrl.isSome ∧
  (∀ u, s.prevBlobUrl = some u → s.nextResourceId = u + 1 ∧ s.released = List.range u) ∧
  (s.prevBlobUrl = none → s.released = List.range s.nextResourceId)

/-- A burst of edits: each entry is a (document, template) pair for a
re-render; the burst is well formed when every entry passes the compile
guard and actually changes at least one of the two props (an identical
render does not re-run the effects). -/
def burstOk : CState → List (Nat × String) → Bool
  | _, [] => true
  | s, (d, t) :: rest =>
    !(t == "uploaded") &&
    !(s.resumeData == some d && s.selectedTemplate == some t) &&
    burstOk (inputChange (some d) (some t) s) rest

/-- Apply a burst of edits in order. -/
def runBurst (s : CState) (inputs : List (Nat × String)) : CState :=
  inputs.foldl (fun s2 dt => inputChange (some dt.1) (some dt.2) s2) s

/-- Modelled from the claim wording for comparison: the error string
chain "the failure body's detail field if present and JSON, otherwise
the error description, otherwise Compilation failed". -/
def claimErrorChain (body : Option BodyKind) (msg : Option String) : String :=
  match body with
  | some (BodyKind.jsonBody (some d)) => d
  | _ =>
    match msg with
    | some m => m
    | none => "Compilation failed"

/-- Modelled from the claim wording for comparison: page count defaults
to 1 when the header is missing or unparseable, otherwise the parsed
value. -/
def claimPageCount (hdr : Option String) : Option Int :=
  match hdr with
  | none => some 1
  | some h =>
    match jsParseInt h with
    | none => some 1
    | some v => some v

end CareerLift

namespace CareerLift

/-- Fields of the session state that `doCompile` never touches, and
monotonicity of the sequence counter across it. -/
theorem doCompile_frame (p : Option Nat) (s : CState) :
    (doCompile p s).previewImageUrl = s.previewImageUrl ∧
    (doCompile p s).pageCount = s.pageCount ∧
    (doCompile p s).currentPage = s.currentPage ∧
    (doCompile p s).hasPreview = s.hasPreview ∧
    (doCompile p s).prevBlobUrl = s.prevBlobUrl ∧
    (doCompile p s).nextResourceId = s.nextResourceId ∧
    (doCompile p s).released = s.released ∧
    (doCompile p s).sidebarEvents = s.sidebarEvents ∧
    (doCompile p s).timerRef = s.timerRef ∧
    (doCompile p s).lastCompileTime = s.lastCompileTime ∧
    (doCompile p s).resumeData = s.resumeData ∧
    (doCompile p s).selectedTemplate = s.selectedTemplate ∧
    (doCompile p s).nextTimerId = s.nextTimerId ∧
    s.seq ≤ (doCompile p s).seq := by
  unfold doCompile
  repeat' split
  all_goals simp

/-- When the guard of line 56 fails, `doCompile` is the identity. -/
theorem doCompile_guard_fail (p : Option Nat) (s : CState)
    (h : guardOk s.resumeData s.selectedTemplate = false) : doCompile p s = s := by
  unfold doCompile guardOk at *
  repeat' split
  all_goals simp_all

/-- When the guard passes, `doCompile` allocates the next sequence
number, marks compiling, clears the error, installs a fresh abort
controller, issues exactly one request carrying the current document
and template for the requested page, and aborts the previous
controller. -/
theorem doCompile_guard_ok (p : Option Nat) (s : CState) (d : Nat) (t : String)
    (hd : s.resumeData = some d) (ht : s.selectedTemplate = some t)
    (hu : t ≠ "uploaded") :
    (doCompile p s).seq = s.seq + 1 ∧
    (doCompile p s).compiling = true ∧
    (doCompile p s).compileError = none ∧
    (doCompile p s).abortRef = some (s.seq + 1) ∧
    (doCompile p s).requests = s.requests ++ [⟨s.seq + 1, p.getD s.currentPage, d, t⟩] ∧
    (doCompile p s).aborted = (match s.abortRef with
      | some c => s.aborted ++ [c]
      | none => s.aborted) := by
  unfold doCompile
  rw [hd, ht]
  simp [hu]
  repeat' split
  all_goals simp_all

end CareerLift

namespace CareerLift

/-- A response whose sequence number is no longer the current one
leaves the state completely unchanged (success path, lines 84 and
124-128). -/
theorem handleSuccess_stale (r : Nat) (hdr : Option String) (s : CState)
    (h : r ≠ s.seq) : handleSuccess r hdr s = s := by
  unfold handleSuccess applyFinal
  repeat' split
  all_goals simp_all

/-- A failure response whose sequence number is no longer the current
one leaves the state completely unchanged (lines 110-111 and
124-128). -/
theorem handleFailure_stale (r : Nat) (body : Option BodyKind) (msg : Option String)
    (s : CState) (h : r ≠ s.seq) : handleFailure r body msg s = s := by
  unfold handleFailure applyFinal
  repeat' split
  all_goals simp_all

/-- Effect of a successful response for the still-current, non-aborted
request: install a fresh preview resource, release the previous one,
parse the page count, set the has-preview flag, clear compiling, and
dispatch the sidebar event exactly when this is the first preview. -/
theorem handleSuccess_current (r : Nat) (hdr : Option String) (s : CState)
    (h1 : r = s.seq) (h2 : r ∉ s.aborted) :
    (handleSuccess r hdr s).previewImageUrl = some s.nextResourceId ∧
    (handleSuccess r hdr s).prevBlobUrl = some s.nextResourceId ∧
    (handleSuccess r hdr s).nextResourceId = s.nextResourceId + 1 ∧
    (handleSuccess r hdr s).pageCount = parsePageCount hdr ∧
    (handleSuccess r hdr s).hasPreview = true ∧
    (handleSuccess r hdr s).compiling = false ∧
    (handleSuccess r hdr s).compileError = s.compileError ∧
    (handleSuccess r hdr s).currentPage = s.currentPage ∧
    (handleSuccess r hdr s).seq = s.seq ∧
    (handleSuccess r hdr s).sidebarEvents =
      (if s.hasPreview then s.sidebarEvents else s.sidebarEvents + 1) ∧
    (handleSuccess r hdr s).released = (match s.prevBlobUrl with
      | some u => s.released ++ [u]
      | none => s.released) := by
  unfold handleSuccess
  repeat' split
  all_goals simp_all

/-- Effect of a bodyless failure response for the still-current,
non-aborted request: the error string is stored and the compiling flag
cleared in the same turn; nothing else changes. -/
theorem handleFailure_current_noBody (r : Nat) (msg : Option String)
    (s : CState) (h1 : r = s.seq) (h2 : r ∉ s.aborted) :
    handleFailure r none msg s =
      { s with compileError := some (computeError none msg), compiling := false } := by
  unfold handleFailure
  simp_all

/-- Effect of the synchronous part of a failure response carrying a
body, for the still-current, non-aborted request: the checks pass and
the body read is started; no visible state is mutated yet. -/
theorem handleFailure_current_body (r : Nat) (b : BodyKind) (msg : Option String)
    (s : CState) (h1 : r = s.seq) (h2 : r ∉ s.aborted) :
    handleFailure r (some b) msg s =
      { s with pendingErrReads := s.pendingErrReads ++ [(r, b)] } := by
  unfold handleFailure
  simp_all

/-- The body branch of computeError never consults the error
message. -/
theorem computeError_body (b : BodyKind) (m1 m2 : Option String) :
    computeError (some b) m1 = computeError (some b) m2 := by
  cases b <;> rfl

/-- Resolution of a pending body read: the error string is written
unconditionally, every other visible field is untouched, and the
compiling flag is cleared exactly when the originating request is still
the current one (the finally block re-checks the sequence number after
the await). -/
theorem resolveErrRead_mem (r : Nat) (b : BodyKind) (s : CState)
    (h : (r, b) ∈ s.pendingErrReads) :
    (resolveErrRead r b s).compileError = some (computeError (some b) none) ∧
    (resolveErrRead r b s).previewImageUrl = s.previewImageUrl ∧
    (resolveErrRead r b s).pageCount = s.pageCount ∧
    (resolveErrRead r b s).prevBlobUrl = s.prevBlobUrl ∧
    (resolveErrRead r b s).released = s.released ∧
    (resolveErrRead r b s).hasPreview = s.hasPreview ∧
    (resolveErrRead r b s).sidebarEvents = s.sidebarEvents ∧
    (resolveErrRead r b s).nextResourceId = s.nextResourceId ∧
    (resolveErrRead r b s).seq = s.seq ∧
    (resolveErrRead r b s).requests = s.requests ∧
    (resolveErrRead r b s).aborted = s.aborted ∧
    (r = s.seq → (resolveErrRead r b s).compiling = false) ∧
    (r ≠ s.seq → (resolveErrRead r b s).compiling = s.compiling) := by
  unfold resolveErrRead applyFinal
  rw [if_pos h]
  repeat' split
  all_goals simp_all

/-- A body read that was never started resolves to nothing. -/
theorem resolveErrRead_not_mem (r : Nat) (b : BodyKind) (s : CState)
    (h : (r, b) ∉ s.pendingErrReads) : resolveErrRead r b s = s := by
  unfold resolveErrRead
  rw [if_neg h]

end CareerLift

namespace CareerLift

/-- The debounce effect body does nothing when its guard (line 152)
fails. -/
theorem debounceEffectBody_guard_fail (s : CState)
    (h : guardOk s.resumeData s.selectedTemplate = false) :
    debounceEffectBody s = s := by
  unfold debounceEffectBody guardOk at *
  repeat' split
  all_goals simp_all

/-- When the guard passes, the debounce effect body resets the page to
0 and arms a fresh timer. -/
theorem debounceEffectBody_guard_ok (s : CState)
    (h : guardOk s.resumeData s.selectedTemplate = true) :
    debounceEffectBody s = { s with
      currentPage := 0,
      timerRef := some s.nextTimerId,
      nextTimerId := s.nextTimerId + 1 } := by
  unfold debounceEffectBody guardOk at *
  repeat' split
  all_goals simp_all

/-- The template-clear effect does nothing while a proper template is
selected. -/
theorem templateClearEffectBody_valid (s : CState) (tv : String)
    (h1 : s.selectedTemplate = some tv) (h2 : tv ≠ "uploaded") :
    templateClearEffectBody s = s := by
  unfold templateClearEffectBody
  rw [h1]
  simp [h2]

/-- Template cleared with a live preview resource: the resource is
revoked and the visible state reset. -/
theorem templateClearEffectBody_clear_some (s : CState) (u : Nat)
    (h : s.selectedTemplate = none ∨ s.selectedTemplate = some "uploaded")
    (hp : s.prevBlobUrl = some u) :
    templateClearEffectBody s = { s with
      released := s.released ++ [u],
      prevBlobUrl := none,
      previewImageUrl := none,
      hasPreview := false,
      pageCount := some 0,
      currentPage := 0,
      compileError := none,
      lastCompileTime := none } := by
  unfold templateClearEffectBody
  rw [if_pos h, hp]

/-- Template cleared with no live preview resource: the visible state
is reset and nothing is revoked. -/
theorem templateClearEffectBody_clear_none (s : CState)
    (h : s.selectedTemplate = none ∨ s.selectedTemplate = some "uploaded")
    (hp : s.prevBlobUrl = none) :
    templateClearEffectBody s = { s with
      previewImageUrl := none,
      hasPreview := false,
      pageCount := some 0,
      currentPage := 0,
      compileError := none,
      lastCompileTime := none } := by
  unfold templateClearEffectBody
  rw [if_pos h]
  simp [hp]

/-- An actual edit (document or template changed) passing the guard:
the refs are updated, the page resets to 0, and a fresh debounce timer
is armed; nothing else changes. -/
theorem inputChange_valid_changed (dv : Nat) (tv : String) (s : CState)
    (hu : tv ≠ "uploaded")
    (hch : some dv ≠ s.resumeData ∨ some tv ≠ s.selectedTemplate) :
    inputChange (some dv) (some tv) s = { s with
      resumeData := some dv,
      selectedTemplate := some tv,
      currentPage := 0,
      timerRef := some s.nextTimerId,
      nextTimerId := s.nextTimerId + 1 } := by
  simp only [inputChange]
  rw [if_pos hch]
  rw [debounceEffectBody_guard_ok _ (by simp [guardOk, clearTimer, hu])]
  split
  · rw [templateClearEffectBody_valid _ tv rfl hu]
    rfl
  · rfl

/-- Fields clearTimeout never touches. -/
theorem clearTimer_frame (s : CState) :
    (clearTimer s).seq = s.seq ∧
    (clearTimer s).requests = s.requests ∧
    (clearTimer s).aborted = s.aborted ∧
    (clearTimer s).abortRef = s.abortRef ∧
    (clearTimer s).compiling = s.compiling ∧
    (clearTimer s).sidebarEvents = s.sidebarEvents ∧
    (clearTimer s).nextResourceId = s.nextResourceId ∧
    (clearTimer s).resumeData = s.resumeData ∧
    (clearTimer s).selectedTemplate = s.selectedTemplate ∧
    (clearTimer s).previewImageUrl = s.previewImageUrl ∧
    (clearTimer s).pageCount = s.pageCount ∧
    (clearTimer s).compileError = s.compileError ∧
    (clearTimer s).hasPreview = s.hasPreview ∧
    (clearTimer s).prevBlobUrl = s.prevBlobUrl ∧
    (clearTimer s).released = s.released ∧
    (clearTimer s).lastCompileTime = s.lastCompileTime ∧
    (clearTimer s).currentPage = s.currentPage := by
  unfold clearTimer
  simp

/-- Fields the debounce effect body never touches. -/
theorem debounceEffectBody_frame (s : CState) :
    (debounceEffectBody s).seq = s.seq ∧
    (debounceEffectBody s).requests = s.requests ∧
    (debounceEffectBody s).aborted = s.aborted ∧
    (debounceEffectBody s).abortRef = s.abortRef ∧
    (debounceEffectBody s).compiling = s.compiling ∧
    (debounceEffectBody s).sidebarEvents = s.sidebarEvents ∧
    (debounceEffectBody s).nextResourceId = s.nextResourceId ∧
    (debounceEffectBody s).resumeData = s.resumeData ∧
    (debounceEffectBody s).selectedTemplate = s.selectedTemplate ∧
    (debounceEffectBody s).previewImageUrl = s.previewImageUrl ∧
    (debounceEffectBody s).pageCount = s.pageCount ∧
    (debounceEffectBody s).compileError = s.compileError ∧
    (debounceEffectBody s).hasPreview = s.hasPreview ∧
    (debounceEffectBody s).prevBlobUrl = s.prevBlobUrl ∧
    (debounceEffectBody s).released = s.released ∧
    (debounceEffectBody s).lastCompileTime = s.lastCompileTime := by
  unfold debounceEffectBody
  repeat' split
  all_goals simp

/-- Fields the template-clear effect body never touches. -/
theorem templateClearEffectBody_frame (s : CState) :
    (templateClearEffectBody s).seq = s.seq ∧
    (templateClearEffectBody s).requests = s.requests ∧
    (templateClearEffectBody s).aborted = s.aborted ∧
    (templateClearEffectBody s).abortRef = s.abortRef ∧
    (templateClearEffectBody s).compiling = s.compiling ∧
    (templateClearEffectBody s).sidebarEvents = s.sidebarEvents ∧
    (templateClearEffectBody s).nextResourceId = s.nextResourceId ∧
    (templateClearEffectBody s).resumeData = s.resumeData ∧
    (templateClearEffectBody s).selectedTemplate = s.selectedTemplate := by
  unfold templateClearEffectBody
  repeat' split
  all_goals simp

/-- Fields no re-render with new props can touch: a prop change alone
never issues a request, never changes the sequence counter, and never
aborts anything. -/
theorem inputChange_frame (d : Option Nat) (t : Option String) (s : CState) :
    (inputChange d t s).seq = s.seq ∧
    (inputChange d t s).requests = s.requests ∧
    (inputChange d t s).aborted = s.aborted ∧
    (inputChange d t s).abortRef = s.abortRef ∧
    (inputChange d t s).compiling = s.compiling ∧
    (inputChange d t s).sidebarEvents = s.sidebarEvents ∧
    (inputChange d t s).nextResourceId = s.nextResourceId ∧
    (inputChange d t s).resumeData = d ∧
    (inputChange d t s).selectedTemplate = t := by
  unfold inputChange
  by_cases ht : t = s.selectedTemplate <;> by_cases hd : d = s.resumeData <;>
    simp only [ht, hd, ne_eq, not_true_eq_false, not_false_eq_true, if_true, if_false,
      or_true, true_or, or_self, if_pos, if_neg] <;>
    simp_all [clearTimer_frame, debounceEffectBody_frame, templateClearEffectBody_frame]

/-- The unmount cleanup clears the timer, aborts the current
controller and revokes the current blob URL. -/
theorem unmountStep_spec (s : CState) :
    (unmountStep s).timerRef = none ∧
    (unmountStep s).aborted = (match s.abortRef with
      | some c => s.aborted ++ [c]
      | none => s.aborted) ∧
    (unmountStep s).released = (match s.prevBlobUrl with
      | some u => s.released ++ [u]
      | none => s.released) ∧
    (unmountStep s).nextResourceId = s.nextResourceId ∧
    (unmountStep s).prevBlobUrl = s.prevBlobUrl ∧
    (unmountStep s).seq = s.seq := by
  unfold unmountStep
  repeat' split
  all_goals simp_all

end CareerLift

namespace CareerLift

/-- An absent template or the sentinel template fails the guard for
any document. -/
theorem guardOk_invalid (d : Option Nat) (t : Option String)
    (hinv : t = none ∨ t = some "uploaded") : guardOk d t = false := by
  rcases hinv with h | h <;> subst h <;> cases d <;> simp [guardOk]

/-- Switching the template prop to none or "uploaded" runs the
template-clear effect: the timer is cancelled, the preview resource
revoked and the visible state reset.  The in-flight controller and the
sequence counter are untouched (see inputChange_frame). -/
theorem inputChange_teardown (d : Option Nat) (t : Option String) (s : CState)
    (hinv : t = none ∨ t = some "uploaded") (hch : t ≠ s.selectedTemplate) :
    (inputChange d t s).previewImageUrl = none ∧
    (inputChange d t s).hasPreview = false ∧
    (inputChange d t s).pageCount = some 0 ∧
    (inputChange d t s).currentPage = 0 ∧
    (inputChange d t s).compileError = none ∧
    (inputChange d t s).lastCompileTime = none ∧
    (inputChange d t s).timerRef = none ∧
    (inputChange d t s).prevBlobUrl = none ∧
    (inputChange d t s).released = (match s.prevBlobUrl with
      | some u => s.released ++ [u]
      | none => s.released) := by
  simp only [inputChange]
  rw [if_pos (Or.inr hch), if_pos hch]
  rw [debounceEffectBody_guard_fail _ (by simpa [clearTimer] using guardOk_invalid d t hinv)]
  cases hp : s.prevBlobUrl with
  | some u =>
    rw [templateClearEffectBody_clear_some _ u (by simpa [clearTimer] using hinv)
      (by simp [clearTimer, hp])]
    simp [clearTimer]
  | none =>
    rw [templateClearEffectBody_clear_none _ (by simpa [clearTimer] using hinv)
      (by simp [clearTimer, hp])]
    simp [clearTimer]

/-- A re-render that keeps the template prop unchanged never touches
the preview, page count, error, or resource fields. -/
theorem inputChange_sameTemplate (d : Option Nat) (t : Option String) (s : CState)
    (ht : t = s.selectedTemplate) :
    (inputChange d t s).previewImageUrl = s.previewImageUrl ∧
    (inputChange d t s).pageCount = s.pageCount ∧
    (inputChange d t s).compileError = s.compileError ∧
    (inputChange d t s).hasPreview = s.hasPreview ∧
    (inputChange d t s).prevBlobUrl = s.prevBlobUrl ∧
    (inputChange d t s).released = s.released ∧
    (inputChange d t s).lastCompileTime = s.lastCompileTime := by
  simp only [inputChange]
  rw [if_neg (by simp [ht])]
  by_cases hd : d = s.resumeData
  · rw [if_neg (by simp [hd, ht])]
    simp
  · rw [if_pos (Or.inl hd)]
    simp [debounceEffectBody_frame, clearTimer]

/-- With the template unchanged and the guard failing, the current
page is not reset either. -/
theorem inputChange_sameTemplate_guardFail_currentPage (d : Option Nat) (t : Option String)
    (s : CState) (ht : t = s.selectedTemplate) (hg : guardOk d t = false) :
    (inputChange d t s).currentPage = s.currentPage := by
  simp only [inputChange]
  rw [if_neg (by simp [ht])]
  by_cases hd : d = s.resumeData
  · rw [if_neg (by simp [hd, ht])]
  · rw [if_pos (Or.inl hd)]
    rw [debounceEffectBody_guard_fail _ (by simpa [clearTimer, ht] using hg)]
    simp [clearTimer]

/-- A re-render whose new template is a proper (non-sentinel) one
never touches the preview, page count, error, or resource fields. -/
theorem inputChange_validTemplate (d : Option Nat) (tv : String) (s : CState)
    (hu : tv ≠ "uploaded") :
    (inputChange d (some tv) s).previewImageUrl = s.previewImageUrl ∧
    (inputChange d (some tv) s).pageCount = s.pageCount ∧
    (inputChange d (some tv) s).compileError = s.compileError ∧
    (inputChange d (some tv) s).hasPreview = s.hasPreview ∧
    (inputChange d (some tv) s).prevBlobUrl = s.prevBlobUrl ∧
    (inputChange d (some tv) s).released = s.released ∧
    (inputChange d (some tv) s).lastCompileTime = s.lastCompileTime := by
  simp only [inputChange]
  by_cases ht : (some tv : Option String) = s.selectedTemplate
  · rw [if_neg (by simp [ht])]
    by_cases hd : d = s.resumeData
    · rw [if_neg (by simp [hd, ht])]
      simp
    · rw [if_pos (Or.inl hd)]
      simp [debounceEffectBody_frame, clearTimer]
  · rw [if_pos (Or.inr ht), if_pos ht]
    rw [templateClearEffectBody_valid _ tv
      (by rw [(debounceEffectBody_frame _).2.2.2.2.2.2.2.2.1]; simp [clearTimer]) hu]
    simp [debounceEffectBody_frame, clearTimer]

/-- With a proper template but no document the guard fails and the
current page is preserved. -/
theorem inputChange_validTemplate_guardFail_currentPage (tv : String) (s : CState)
    (hu : tv ≠ "uploaded") :
    (inputChange none (some tv) s).currentPage = s.currentPage := by
  simp only [inputChange]
  by_cases ht : (some tv : Option String) = s.selectedTemplate
  · rw [if_neg (by simp [ht])]
    by_cases hd : (none : Option Nat) = s.resumeData
    · rw [if_neg (by simp [hd, ht])]
    · rw [if_pos (Or.inl hd)]
      rw [debounceEffectBody_guard_fail _ (by simp [clearTimer, guardOk])]
      simp [clearTimer]
  · rw [if_pos (Or.inr ht), if_pos ht]
    rw [templateClearEffectBody_valid _ tv
      (by rw [(debounceEffectBody_frame _).2.2.2.2.2.2.2.2.1]; simp [clearTimer]) hu]
    rw [debounceEffectBody_guard_fail _ (by simp [clearTimer, guardOk])]
    simp [clearTimer]

end CareerLift

namespace CareerLift

/-- The finally block only ever touches the compiling flag. -/
theorem applyFinal_frame (r : Nat) (s : CState) :
    (applyFinal r s).previewImageUrl = s.previewImageUrl ∧
    (applyFinal r s).hasPreview = s.hasPreview ∧
    (applyFinal r s).prevBlobUrl = s.prevBlobUrl ∧
    (applyFinal r s).released = s.released ∧
    (applyFinal r s).nextResourceId = s.nextResourceId ∧
    (applyFinal r s).pageCount = s.pageCount ∧
    (applyFinal r s).compileError = s.compileError ∧
    (applyFinal r s).seq = s.seq ∧
    (applyFinal r s).sidebarEvents = s.sidebarEvents ∧
    (applyFinal r s).requests = s.requests := by
  unfold applyFinal
  split
  all_goals simp

/-- The session invariant is preserved by any step that leaves the
resource-tracking fields unchanged. -/
theorem Inv_of_preserved (s s2 : CState) (h : Inv s)
    (e1 : s2.previewImageUrl = s.previewImageUrl)
    (e2 : s2.hasPreview = s.hasPreview)
    (e3 : s2.prevBlobUrl = s.prevBlobUrl)
    (e4 : s2.released = s.released)
    (e5 : s2.nextResourceId = s.nextResourceId) : Inv s2 := by
  obtain ⟨h1, h2, h3, h4⟩ := h
  refine ⟨by rw [e1, e3, h1], by rw [e2, e3, h2], ?_, ?_⟩
  · intro u hu
    rw [e3] at hu
    rw [e5, e4]
    exact h3 u hu
  · intro hn
    rw [e3] at hn
    rw [e5, e4]
    exact h4 hn

/-- The invariant holds at mount. -/
theorem Inv_init : Inv initState := by
  refine ⟨rfl, rfl, ?_, ?_⟩
  · intro u hu
    simp [initState] at hu
  · intro _
    simp [initState]

/-- Every event of a live session preserves the resource invariant. -/
theorem Inv_step (e : Event) (s : CState) (h : Inv s) : Inv (step e s) := by
  have hds : ∀ p s3, Inv s3 → Inv (doCompile p s3) := by
    intro p s3 h3
    obtain ⟨f1, f2, f3, f4, f5, f6, f7, -⟩ := doCompile_frame p s3
    exact Inv_of_preserved s3 _ h3 f1 f4 f5 f7 f6
  have hct : ∀ s3, Inv s3 → Inv (clearTimer s3) := by
    intro s3 h3
    exact Inv_of_preserved s3 _ h3 (by simp [clearTimer]) (by simp [clearTimer])
      (by simp [clearTimer]) (by simp [clearTimer]) (by simp [clearTimer])
  have hcp : ∀ (p : Nat) s3, Inv s3 → Inv { s3 with currentPage := p } := by
    intro p s3 h3
    exact Inv_of_preserved s3 _ h3 (by simp) (by simp) (by simp) (by simp) (by simp)
  cases e with
  | inputChange d t =>
    show Inv (inputChange d t s)
    have hnext := (inputChange_frame d t s).2.2.2.2.2.2.1
    by_cases ht : t = s.selectedTemplate
    · obtain ⟨p1, p2, p3, p4, p5, p6, p7⟩ := inputChange_sameTemplate d t s ht
      exact Inv_of_preserved s _ h p1 p4 p5 p6 hnext
    · cases t with
      | none =>
        obtain ⟨q1, q2, q3, q4, q5, q6, q7, q8, q9⟩ :=
          inputChange_teardown d none s (Or.inl rfl) ht
        obtain ⟨h1, h2, h3, h4⟩ := h
        refine ⟨by rw [q1, q8], by rw [q2, q8]; rfl, ?_, ?_⟩
        · intro u hu
          rw [q8] at hu
          exact absurd hu (by simp)
        · intro _
          rw [q9, hnext]
          cases hp : s.prevBlobUrl with
          | some u =>
            obtain ⟨r1, r2⟩ := h3 u hp
            rw [r2, r1]
            exact (List.range_succ u).symm
          | none =>
            exact h4 hp
      | some tv =>
        by_cases huv : tv = "uploaded"
        · subst huv
          obtain ⟨q1, q2, q3, q4, q5, q6, q7, q8, q9⟩ :=
            inputChange_teardown d (some "uploaded") s (Or.inr rfl) ht
          obtain ⟨h1, h2, h3, h4⟩ := h
          refine ⟨by rw [q1, q8], by rw [q2, q8]; rfl, ?_, ?_⟩
          · intro u hu
            rw [q8] at hu
            exact absurd hu (by simp)
          · intro _
            rw [q9, hnext]
            cases hp : s.prevBlobUrl with
            | some u =>
              obtain ⟨r1, r2⟩ := h3 u hp
              rw [r2, r1]
              exact (List.range_succ u).symm
            | none =>
              exact h4 hp
        · obtain ⟨p1, p2, p3, p4, p5, p6, p7⟩ := inputChange_validTemplate d tv s huv
          exact Inv_of_preserved s _ h p1 p4 p5 p6 hnext
  | timerFire id =>
    show Inv (timerFire id s)
    unfold timerFire
    split
    · exact hds _ _ (hct _ h)
    · exact h
  | trigger =>
    exact hds _ _ (hct _ h)
  | goTo p =>
    exact hds _ _ (hct _ (hcp p _ h))
  | respondSuccess r hdr =>
    show Inv (handleSuccess r hdr s)
    by_cases hm : r ∈ s.aborted
    · have : handleSuccess r hdr s = applyFinal r s := by
        unfold handleSuccess
        rw [if_pos hm]
      rw [this]
      obtain ⟨f1, f2, f3, f4, f5, -⟩ := applyFinal_frame r s
      exact Inv_of_preserved s _ h f1 f2 f3 f4 f5
    · by_cases hr : r = s.seq
      · obtain ⟨c1, c2, c3, c4, c5, c6, c7, c8, c9, c10, c11⟩ :=
          handleSuccess_current r hdr s hr hm
        obtain ⟨h1, h2, h3, h4⟩ := h
        refine ⟨by rw [c1, c2], by rw [c5, c2]; rfl, ?_, ?_⟩
        · intro u hu
          rw [c2] at hu
          injection hu with hu2
          subst hu2
          refine ⟨by rw [c3], ?_⟩
          rw [c11]
          cases hp : s.prevBlobUrl with
          | some v =>
            obtain ⟨r1, r2⟩ := h3 v hp
            rw [r2, r1]
            exact (List.range_succ v).symm
          | none =>
            exact h4 hp
        · intro hn
          rw [c2] at hn
          exact absurd hn (by simp)
      · rw [handleSuccess_stale r hdr s hr]
        exact ⟨h.1, h.2.1, h.2.2.1, h.2.2.2⟩
  | respondFailure r body msg =>
    show Inv (handleFailure r body msg s)
    by_cases hm : r ∈ s.aborted
    · have : handleFailure r body msg s = applyFinal r s := by
        unfold handleFailure
        rw [if_pos hm]
      rw [this]
      obtain ⟨f1, f2, f3, f4, f5, -⟩ := applyFinal_frame r s
      exact Inv_of_preserved s _ h f1 f2 f3 f4 f5
    · by_cases hr : r = s.seq
      · cases body with
        | none =>
          rw [handleFailure_current_noBody r msg s hr hm]
          exact Inv_of_preserved s _ h (by simp) (by simp) (by simp) (by simp) (by simp)
        | some b =>
          rw [handleFailure_current_body r b msg s hr hm]
          exact Inv_of_preserved s _ h (by simp) (by simp) (by simp) (by simp) (by simp)
      · rw [handleFailure_stale r body msg s hr]
        exact ⟨h.1, h.2.1, h.2.2.1, h.2.2.2⟩
  | resolveErrRead r b =>
    show Inv (resolveErrRead r b s)
    by_cases hmem : (r, b) ∈ s.pendingErrReads
    · obtain ⟨-, m2, -, m4, m5, m6, -, m8, -⟩ := resolveErrRead_mem r b s hmem
      exact Inv_of_preserved s _ h m2 m6 m4 m5 m8
    · rw [resolveErrRead_not_mem r b s hmem]
      exact ⟨h.1, h.2.1, h.2.2.1, h.2.2.2⟩

/-- Every reachable state of a session satisfies the resource
invariant. -/
theorem Inv_run (es : List Event) : Inv (run es) := by
  suffices hgen : ∀ s, Inv s → Inv (es.foldl (fun s2 e => step e s2) s) by
    exact hgen initState Inv_init
  induction es with
  | nil => intro s hs; exact hs
  | cons e rest ih =>
    intro s hs
    exact ih (step e s) (Inv_step e s hs)

end CareerLift

namespace CareerLift

/-- No event ever decreases the sequence counter. -/
theorem seq_mono_step (e : Event) (s : CState) : s.seq ≤ (step e s).seq := by
  cases e with
  | inputChange d t =>
    exact le_of_eq (inputChange_frame d t s).1.symm
  | timerFire id =>
    show s.seq ≤ (timerFire id s).seq
    unfold timerFire
    split
    · have h1 := (doCompile_frame (some 0) (clearTimer s)).2.2.2.2.2.2.2.2.2.2.2.2.2
      simpa [clearTimer] using h1
    · exact le_refl _
  | trigger =>
    have h1 := (doCompile_frame none (clearTimer s)).2.2.2.2.2.2.2.2.2.2.2.2.2
    simpa [clearTimer] using h1
  | goTo p =>
    have h1 := (doCompile_frame (some p) (clearTimer { s with currentPage := p })).2.2.2.2.2.2.2.2.2.2.2.2.2
    simpa [clearTimer] using h1
  | respondSuccess r hdr =>
    show s.seq ≤ (handleSuccess r hdr s).seq
    by_cases hr : r = s.seq
    · by_cases hm : r ∈ s.aborted
      · have : handleSuccess r hdr s = applyFinal r s := by
          unfold handleSuccess
          rw [if_pos hm]
        rw [this]
        exact le_of_eq (applyFinal_frame r s).2.2.2.2.2.2.2.1.symm
      · exact le_of_eq ((handleSuccess_current r hdr s hr hm).2.2.2.2.2.2.2.2.1).symm
    · rw [handleSuccess_stale r hdr s hr]
  | respondFailure r body msg =>
    show s.seq ≤ (handleFailure r body msg s).seq
    by_cases hr : r = s.seq
    · by_cases hm : r ∈ s.aborted
      · have : handleFailure r body msg s = applyFinal r s := by
          unfold handleFailure
          rw [if_pos hm]
        rw [this]
        exact le_of_eq (applyFinal_frame r s).2.2.2.2.2.2.2.1.symm
      · cases body with
        | none => rw [handleFailure_current_noBody r msg s hr hm]
        | some b => rw [handleFailure_current_body r b msg s hr hm]
    · rw [handleFailure_stale r body msg s hr]
  | resolveErrRead r b =>
    show s.seq ≤ (resolveErrRead r b s).seq
    by_cases hmem : (r, b) ∈ s.pendingErrReads
    · exact le_of_eq ((resolveErrRead_mem r b s hmem).2.2.2.2.2.2.2.2.1).symm
    · rw [resolveErrRead_not_mem r b s hmem]

end CareerLift

namespace CareerLift

/-- A passing guard yields a concrete document and a proper
template. -/
theorem guardOk_true_elim (a : Option Nat) (b : Option String)
    (h : guardOk a b = true) :
    ∃ dv tv, a = some dv ∧ b = some tv ∧ tv ≠ "uploaded" := by
  unfold guardOk at h
  cases a with
  | none => simp at h
  | some dv =>
    cases b with
    | none => simp at h
    | some tv =>
      refine ⟨dv, tv, rfl, rfl, ?_⟩
      simpa using h

/-- Counterexample to C1 as stated: request 1 fails with a response
body and passes the staleness check of line 111 while still current;
during the await of line 115 a new compile is issued (request 2,
clearing the error); the body read then resolves and stores request
1's error string anyway — a response whose sequence (1) differs from
the most recently issued one (2) changes visible state.  The compiling
flag however stays set, because the finally block re-checks the
sequence at resolution time. -/
theorem autoCompile_lastIssuedWins_counterexample :
    (run [Event.inputChange (some 1) (some "modern"), Event.timerFire 0,
      Event.respondFailure 1 (some BodyKind.rawBody) (some "Boom"),
      Event.trigger]).seq = 2 ∧
    (run [Event.inputChange (some 1) (some "modern"), Event.timerFire 0,
      Event.respondFailure 1 (some BodyKind.rawBody) (some "Boom"),
      Event.trigger]).compileError = none ∧
    (1 : Nat) ≠ 2 ∧
    (run [Event.inputChange (some 1) (some "modern"), Event.timerFire 0,
      Event.respondFailure 1 (some BodyKind.rawBody) (some "Boom"),
      Event.trigger, Event.resolveErrRead 1 BodyKind.rawBody]).compileError =
      some "Compilation failed" ∧
    (run [Event.inputChange (some 1) (some "modern"), Event.timerFire 0,
      Event.respondFailure 1 (some BodyKind.rawBody) (some "Boom"),
      Event.trigger, Event.resolveErrRead 1 BodyKind.rawBody]).compiling = true := by
  refine ⟨by decide, by decide, by decide, by decide, by decide⟩

/-- C1 amended: issuing a compile strictly increases the sequence
counter and no event decreases it; a success response with a stale
sequence is a complete no-op, as is a failure that is stale at its
line-111 staleness check; a body-bearing failure that was current at
the check, however, suspends at the body read of line 115 without
mutating anything, and its later resolution stores the error string
unconditionally — even when a newer request was issued during the read
— while never touching the preview or page count, and clearing the
compiling flag only when the originating request is still current
(the finally block re-checks).  So the preview and page count reflect
only the most recently issued completed request, but the error string
can reflect a superseded one. -/
theorem autoCompile_lastIssuedWins (s : CState) :
    (∀ e, s.seq ≤ (step e s).seq) ∧
    (∀ p, guardOk s.resumeData s.selectedTemplate = true →
      (doCompile p s).seq = s.seq + 1) ∧
    (∀ r hdr, r ≠ s.seq → handleSuccess r hdr s = s) ∧
    (∀ r body msg, r ≠ s.seq → handleFailure r body msg s = s) ∧
    (∀ r b msg, r = s.seq → r ∉ s.aborted →
      handleFailure r (some b) msg s =
        { s with pendingErrReads := s.pendingErrReads ++ [(r, b)] }) ∧
    (∀ r b, (r, b) ∈ s.pendingErrReads →
      (resolveErrRead r b s).compileError = some (computeError (some b) none) ∧
      (resolveErrRead r b s).previewImageUrl = s.previewImageUrl ∧
      (resolveErrRead r b s).pageCount = s.pageCount ∧
      (resolveErrRead r b s).seq = s.seq ∧
      (r ≠ s.seq → (resolveErrRead r b s).compiling = s.compiling)) := by
  refine ⟨fun e => seq_mono_step e s, ?_, ?_, ?_, ?_, ?_⟩
  · intro p hg
    obtain ⟨dv, tv, hd, ht, hu⟩ := guardOk_true_elim _ _ hg
    exact (doCompile_guard_ok p s dv tv hd ht hu).1
  · intro r hdr hr
    exact handleSuccess_stale r hdr s hr
  · intro r body msg hr
    exact handleFailure_stale r body msg s hr
  · intro r b msg h1 h2
    exact handleFailure_current_body r b msg s h1 h2
  · intro r b hmem
    obtain ⟨m1, m2, m3, -, -, -, -, -, m9, -, -, -, m13⟩ := resolveErrRead_mem r b s hmem
    exact ⟨m1, m2, m3, m9, m13⟩

/-- Witness for C1 amended at a concrete state with request 1
superseded by request 2 while its body read is pending: the stale
success is a no-op, and the resolution writes the error while leaving
preview, page count and the compiling flag alone. -/
theorem autoCompile_lastIssuedWins_witness :
    handleSuccess 1 (some "9")
      (run [Event.inputChange (some 1) (some "modern"), Event.timerFire 0,
        Event.respondFailure 1 (some BodyKind.rawBody) (some "Boom"), Event.trigger]) =
      run [Event.inputChange (some 1) (some "modern"), Event.timerFire 0,
        Event.respondFailure 1 (some BodyKind.rawBody) (some "Boom"), Event.trigger] ∧
    (resolveErrRead 1 BodyKind.rawBody
      (run [Event.inputChange (some 1) (some "modern"), Event.timerFire 0,
        Event.respondFailure 1 (some BodyKind.rawBody) (some "Boom"),
        Event.trigger])).compileError = some (computeError (some BodyKind.rawBody) none) ∧
    (resolveErrRead 1 BodyKind.rawBody
      (run [Event.inputChange (some 1) (some "modern"), Event.timerFire 0,
        Event.respondFailure 1 (some BodyKind.rawBody) (some "Boom"),
        Event.trigger])).previewImageUrl =
      (run [Event.inputChange (some 1) (some "modern"), Event.timerFire 0,
        Event.respondFailure 1 (some BodyKind.rawBody) (some "Boom"),
        Event.trigger]).previewImageUrl :=
  ⟨(autoCompile_lastIssuedWins
      (run [Event.inputChange (some 1) (some "modern"), Event.timerFire 0,
        Event.respondFailure 1 (some BodyKind.rawBody) (some "Boom"),
        Event.trigger])).2.2.1 1 (some "9") (by decide),
   ((autoCompile_lastIssuedWins
      (run [Event.inputChange (some 1) (some "modern"), Event.timerFire 0,
        Event.respondFailure 1 (some BodyKind.rawBody) (some "Boom"),
        Event.trigger])).2.2.2.2.2 1 BodyKind.rawBody (by decide)).1,
   ((autoCompile_lastIssuedWins
      (run [Event.inputChange (some 1) (some "modern"), Event.timerFire 0,
        Event.respondFailure 1 (some BodyKind.rawBody) (some "Boom"),
        Event.trigger])).2.2.2.2.2 1 BodyKind.rawBody (by decide)).2.1⟩

/-- C9: the exposed isRecompiling flag is true exactly when a compile
is in flight and a preview resource is displayed, and before the first
successful install of a session (no resource ever created) it is always
false. -/
theorem autoCompile_isRecompiling (es : List Event) :
    (isRecompiling (run es) = true ↔
      (run es).compiling = true ∧ (run es).previewImageUrl.isSome = true) ∧
    ((run es).nextResourceId = 0 →
      (run es).previewImageUrl = none ∧ isRecompiling (run es) = false) := by
  constructor
  · simp [isRecompiling, Bool.and_eq_true]
  · intro h0
    obtain ⟨h1, h2, h3, h4⟩ := Inv_run es
    have hnone : (run es).prevBlobUrl = none := by
      cases hp : (run es).prevBlobUrl with
      | some u =>
        obtain ⟨r1, r2⟩ := h3 u hp
        rw [h0] at r1
        exact absurd r1.symm (Nat.succ_ne_zero u)
      | none => rfl
    refine ⟨by rw [h1, hnone], ?_⟩
    unfold isRecompiling
    rw [h1, hnone]
    simp

/-- Witness for C9 at the freshly mounted session. -/
theorem autoCompile_isRecompiling_witness :
    (run []).previewImageUrl = none ∧ isRecompiling (run []) = false :=
  (autoCompile_isRecompiling []).2 (by decide)

/-- C10: goToPage stores the requested page index unconditionally (no
clamp against the page count) and cancels any pending debounce timer;
when the compile guard fails it performs no other change at all: no
request, and every other field is exactly as before. -/
theorem autoCompile_goToPage (s : CState) (p : Nat) :
    (goToPage p s).currentPage = p ∧
    (goToPage p s).timerRef = none ∧
    (guardOk s.resumeData s.selectedTemplate = false →
      goToPage p s = { s with currentPage := p, timerRef := none }) := by
  refine ⟨?_, ?_, ?_⟩
  · have h1 := (doCompile_frame (some p) (clearTimer { s with currentPage := p })).2.2.1
    simpa [clearTimer] using h1
  · have h2 := (doCompile_frame (some p)
      (clearTimer { s with currentPage := p })).2.2.2.2.2.2.2.2.1
    simpa [clearTimer] using h2
  · intro hg
    unfold goToPage
    rw [doCompile_guard_fail _ _ (by simpa [clearTimer] using hg)]
    rfl

/-- Witness for C10: navigating to page 99 while the page count is 0
still stores 99 and changes nothing else. -/
theorem autoCompile_goToPage_witness :
    (goToPage 99 initState).currentPage = 99 ∧
    goToPage 99 initState = { initState with currentPage := 99, timerRef := none } :=
  ⟨(autoCompile_goToPage initState 99).1,
   (autoCompile_goToPage initState 99).2.2 (by decide)⟩

end CareerLift

namespace CareerLift

/-- Counterexample to C2 as stated: a present but unparseable
x-page-count header ("abc") does not default the page count to 1; the
code stores parseInt("abc"), i.e. NaN. -/
theorem autoCompile_pageCount_counterexample :
    (run [Event.inputChange (some 1) (some "modern"), Event.timerFire 0,
      Event.respondSuccess 1 (some "abc")]).pageCount = none ∧
    (none : Option Int) ≠ some 1 ∧
    claimPageCount (some "abc") = some 1 := by
  refine ⟨by decide, by decide, by decide⟩

/-- C2 amended: on a successful current response the page count is
parseInt(header || "1"): a missing or empty header defaults to 1, and a
non-empty header is parsed by JavaScript parseInt, which yields NaN
(modelled as none), not 1, when the header has no leading decimal
integer. -/
theorem autoCompile_pageCount (s : CState) (r : Nat) (hdr : Option String)
    (h1 : r = s.seq) (h2 : r ∉ s.aborted) :
    (handleSuccess r hdr s).pageCount = parsePageCount hdr ∧
    (hdr = none → (handleSuccess r hdr s).pageCount = some 1) ∧
    (hdr = some "" → (handleSuccess r hdr s).pageCount = some 1) ∧
    (∀ h, hdr = some h → h ≠ "" → (handleSuccess r hdr s).pageCount = jsParseInt h) := by
  have hc := (handleSuccess_current r hdr s h1 h2).2.2.2.1
  refine ⟨hc, ?_, ?_, ?_⟩
  · intro hh
    subst hh
    rw [hc]
    decide
  · intro hh
    subst hh
    rw [hc]
    decide
  · intro h hh hne
    subst hh
    rw [hc]
    simp [parsePageCount, hne]

/-- Witness for C2 amended at a concrete state and header. -/
theorem autoCompile_pageCount_witness :
    (handleSuccess 1 (some "3xyz")
      (run [Event.inputChange (some 1) (some "modern"), Event.timerFire 0])).pageCount =
      jsParseInt "3xyz" ∧
    jsParseInt "3xyz" = some 3 :=
  ⟨(autoCompile_pageCount
      (run [Event.inputChange (some 1) (some "modern"), Event.timerFire 0])
      1 (some "3xyz") (by decide) (by decide)).2.2.2 "3xyz" rfl (by decide),
   by decide⟩

/-- Counterexample to C3 as stated: with request 1 in flight, clearing
the template cancels the timer and releases state but does not abort
the in-flight request: the aborted set stays empty while the
controller for request 1 is still installed. -/
theorem autoCompile_teardown_counterexample :
    (run [Event.inputChange (some 1) (some "modern"), Event.timerFire 0]).seq = 1 ∧
    (run [Event.inputChange (some 1) (some "modern"), Event.timerFire 0]).abortRef = some 1 ∧
    (inputChange (some 1) none
      (run [Event.inputChange (some 1) (some "modern"), Event.timerFire 0])).aborted = [] ∧
    (inputChange (some 1) none
      (run [Event.inputChange (some 1) (some "modern"), Event.timerFire 0])).abortRef = some 1 := by
  refine ⟨by decide, by decide, by decide, by decide⟩

/-- C3 amended: on unmount the coordinator cancels the pending timer,
aborts the current controller and releases the preview resource; on
template clear/deselect it cancels the pending timer and releases the
preview resource, but does not abort an in-flight request. -/
theorem autoCompile_teardown (s : CState) (d : Option Nat) (t : Option String) :
    ((unmountStep s).timerRef = none ∧
      (∀ c, s.abortRef = some c → c ∈ (unmountStep s).aborted) ∧
      (∀ u, s.prevBlobUrl = some u → (unmountStep s).released = s.released ++ [u])) ∧
    ((t = none ∨ t = some "uploaded") → t ≠ s.selectedTemplate →
      (inputChange d t s).timerRef = none ∧
      (inputChange d t s).prevBlobUrl = none ∧
      (inputChange d t s).previewImageUrl = none ∧
      (∀ u, s.prevBlobUrl = some u → (inputChange d t s).released = s.released ++ [u]) ∧
      (inputChange d t s).aborted = s.aborted ∧
      (inputChange d t s).abortRef = s.abortRef) := by
  obtain ⟨u1, u2, u3, -, -, -⟩ := unmountStep_spec s
  constructor
  · refine ⟨u1, ?_, ?_⟩
    · intro c hc
      rw [u2, hc]
      simp
    · intro u hu
      rw [u3, hu]
  · intro hinv hch
    obtain ⟨q1, q2, q3, q4, q5, q6, q7, q8, q9⟩ := inputChange_teardown d t s hinv hch
    have hf := inputChange_frame d t s
    refine ⟨q7, q8, q1, ?_, hf.2.2.1, hf.2.2.2.1⟩
    intro u hu
    rw [q9, hu]

/-- Witness for C3 amended at a concrete state with a live resource
and an in-flight request. -/
theorem autoCompile_teardown_witness :
    (inputChange (some 2) none
      (run [Event.inputChange (some 1) (some "modern"), Event.timerFire 0,
        Event.respondSuccess 1 none, Event.trigger])).released =
      (run [Event.inputChange (some 1) (some "modern"), Event.timerFire 0,
        Event.respondSuccess 1 none, Event.trigger]).released ++ [0] ∧
    (inputChange (some 2) none
      (run [Event.inputChange (some 1) (some "modern"), Event.timerFire 0,
        Event.respondSuccess 1 none, Event.trigger])).aborted =
      (run [Event.inputChange (some 1) (some "modern"), Event.timerFire 0,
        Event.respondSuccess 1 none, Event.trigger]).aborted :=
  ⟨((autoCompile_teardown
      (run [Event.inputChange (some 1) (some "modern"), Event.timerFire 0,
        Event.respondSuccess 1 none, Event.trigger]) (some 2) none).2
      (Or.inl rfl) (by decide)).2.2.2.1 0 (by decide),
   ((autoCompile_teardown
      (run [Event.inputChange (some 1) (some "modern"), Event.timerFire 0,
        Event.respondSuccess 1 none, Event.trigger]) (some 2) none).2
      (Or.inl rfl) (by decide)).2.2.2.2.1⟩

/-- Counterexample to C5 as stated: a failure with a non-JSON response
body and error description "Boom", run to completion (the rejection
followed by the resolution of its body read), stores the fixed
fallback string, not the error description the claim chain
prescribes. -/
theorem autoCompile_failure_counterexample :
    (run [Event.inputChange (some 1) (some "modern"), Event.timerFire 0,
      Event.respondFailure 1 (some BodyKind.rawBody) (some "Boom"),
      Event.resolveErrRead 1 BodyKind.rawBody]).compileError =
      some "Compilation failed" ∧
    claimErrorChain (some BodyKind.rawBody) (some "Boom") = "Boom" ∧
    ("Compilation failed" : String) ≠ "Boom" := by
  refine ⟨by decide, by decide, by decide⟩

/-- C5 amended: a non-cancelled failure of the still-current request,
run to completion (directly for a bodyless error, through the body
read and its resolution otherwise), stores exactly computeError
(detail when the body is JSON with a non-empty detail; the fixed
fallback when a body is present but not JSON or lacks a non-empty
detail; otherwise the non-empty error description, else the fallback),
leaves the preview resource and page count untouched, clears the
compiling flag, and every new issuance clears the error. -/
theorem autoCompile_failure (s : CState) (r : Nat) (body : Option BodyKind)
    (msg : Option String) (p : Option Nat) :
    (r = s.seq → r ∉ s.aborted →
      (handleFailure r none msg s).compileError = some (computeError none msg) ∧
      (handleFailure r none msg s).previewImageUrl = s.previewImageUrl ∧
      (handleFailure r none msg s).pageCount = s.pageCount ∧
      (handleFailure r none msg s).prevBlobUrl = s.prevBlobUrl ∧
      (handleFailure r none msg s).released = s.released ∧
      (handleFailure r none msg s).compiling = false) ∧
    (∀ b, r = s.seq → r ∉ s.aborted →
      (resolveErrRead r b (handleFailure r (some b) msg s)).compileError =
        some (computeError (some b) msg) ∧
      (resolveErrRead r b (handleFailure r (some b) msg s)).previewImageUrl =
        s.previewImageUrl ∧
      (resolveErrRead r b (handleFailure r (some b) msg s)).pageCount = s.pageCount ∧
      (resolveErrRead r b (handleFailure r (some b) msg s)).prevBlobUrl = s.prevBlobUrl ∧
      (resolveErrRead r b (handleFailure r (some b) msg s)).released = s.released ∧
      (resolveErrRead r b (handleFailure r (some b) msg s)).compiling = false) ∧
    (∀ dv, dv ≠ "" → computeError (some (BodyKind.jsonBody (some dv))) msg = dv) ∧
    computeError (some (BodyKind.jsonBody none)) msg = "Compilation failed" ∧
    computeError (some BodyKind.rawBody) msg = "Compilation failed" ∧
    (∀ m, m ≠ "" → computeError none (some m) = m) ∧
    computeError none none = "Compilation failed" ∧
    (guardOk s.resumeData s.selectedTemplate = true →
      (doCompile p s).compileError = none) := by
  refine ⟨?_, ?_, ?_, rfl, rfl, ?_, rfl, ?_⟩
  · intro h1 h2
    rw [handleFailure_current_noBody r msg s h1 h2]
    simp
  · intro b h1 h2
    have hb := handleFailure_current_body r b msg s h1 h2
    have hmem : (r, b) ∈ (handleFailure r (some b) msg s).pendingErrReads := by
      rw [hb]
      simp
    obtain ⟨m1, m2, m3, m4, m5, -, -, -, -, -, -, m12, -⟩ :=
      resolveErrRead_mem r b (handleFailure r (some b) msg s) hmem
    refine ⟨?_, ?_, ?_, ?_, ?_, ?_⟩
    · rw [m1, computeError_body b none msg]
    · rw [m2, hb]
    · rw [m3, hb]
    · rw [m4, hb]
    · rw [m5, hb]
    · apply m12
      rw [hb]
      exact h1
  · intro dv hdv
    simp [computeError, hdv]
  · intro m hm
    simp [computeError, hm]
  · intro hg
    obtain ⟨dv, tv, hd, ht, hu⟩ := guardOk_true_elim _ _ hg
    exact (doCompile_guard_ok p s dv tv hd ht hu).2.2.1

/-- Witness for C5 amended: a failing compile whose body read resolves
stores the detail string while preserving the installed preview. -/
theorem autoCompile_failure_witness :
    (resolveErrRead 2 (BodyKind.jsonBody (some "bad latex"))
      (handleFailure 2 (some (BodyKind.jsonBody (some "bad latex"))) none
        (run [Event.inputChange (some 1) (some "modern"), Event.timerFire 0,
          Event.respondSuccess 1 none, Event.trigger]))).compileError =
      some (computeError (some (BodyKind.jsonBody (some "bad latex"))) none) ∧
    (resolveErrRead 2 (BodyKind.jsonBody (some "bad latex"))
      (handleFailure 2 (some (BodyKind.jsonBody (some "bad latex"))) none
        (run [Event.inputChange (some 1) (some "modern"), Event.timerFire 0,
          Event.respondSuccess 1 none, Event.trigger]))).previewImageUrl =
      (run [Event.inputChange (some 1) (some "modern"), Event.timerFire 0,
        Event.respondSuccess 1 none, Event.trigger]).previewImageUrl ∧
    computeError (some (BodyKind.jsonBody (some "bad latex"))) none = "bad latex" :=
  ⟨((autoCompile_failure
      (run [Event.inputChange (some 1) (some "modern"), Event.timerFire 0,
        Event.respondSuccess 1 none, Event.trigger])
      2 (some (BodyKind.jsonBody (some "bad latex"))) none none).2.1
      (BodyKind.jsonBody (some "bad latex")) (by decide) (by decide)).1,
   ((autoCompile_failure
      (run [Event.inputChange (some 1) (some "modern"), Event.timerFire 0,
        Event.respondSuccess 1 none, Event.trigger])
      2 (some (BodyKind.jsonBody (some "bad latex"))) none none).2.1
      (BodyKind.jsonBody (some "bad latex")) (by decide) (by decide)).2.1,
   (autoCompile_failure initState 0 (some (BodyKind.jsonBody (some "bad latex"))) none
      none).2.2.1 "bad latex" (by decide)⟩

end CareerLift

namespace CareerLift

/-- Counterexample to C4 as stated: after a successful compile,
re-rendering with the template cleared (document present, template
null) fails the guard, yet the existing preview is NOT left untouched:
the template-clear effect resets it. -/
theorem autoCompile_guardNoop_counterexample :
    guardOk (some 1) none = false ∧
    (run [Event.inputChange (some 1) (some "modern"), Event.timerFire 0,
      Event.respondSuccess 1 none]).previewImageUrl = some 0 ∧
    (inputChange (some 1) none
      (run [Event.inputChange (some 1) (some "modern"), Event.timerFire 0,
        Event.respondSuccess 1 none])).previewImageUrl = none ∧
    (inputChange (some 1) none
      (run [Event.inputChange (some 1) (some "modern"), Event.timerFire 0,
        Event.respondSuccess 1 none])).pageCount = some 0 := by
  refine ⟨by decide, by decide, by decide, by decide⟩

/-- C4 amended: a guarded call never issues a request, never touches
the sequence counter, and the Compile primitive is a strict no-op; a
guarded re-render whose template prop is unchanged, or still a proper
template (document absent), leaves the preview, page count, page index
and error untouched; but a re-render that clears the template (null or
the sentinel) additionally tears the session down, releasing the
preview and resetting page count, page index and error. -/
theorem autoCompile_guardNoop (s : CState) (d : Option Nat) (t : Option String)
    (p : Option Nat) :
    (guardOk s.resumeData s.selectedTemplate = false → doCompile p s = s) ∧
    ((inputChange d t s).requests = s.requests ∧
      (inputChange d t s).seq = s.seq ∧
      (inputChange d t s).aborted = s.aborted) ∧
    (t = s.selectedTemplate → guardOk d t = false →
      (inputChange d t s).previewImageUrl = s.previewImageUrl ∧
      (inputChange d t s).pageCount = s.pageCount ∧
      (inputChange d t s).currentPage = s.currentPage ∧
      (inputChange d t s).compileError = s.compileError) ∧
    (∀ tv, t = some tv → tv ≠ "uploaded" → d = none →
      (inputChange d t s).previewImageUrl = s.previewImageUrl ∧
      (inputChange d t s).pageCount = s.pageCount ∧
      (inputChange d t s).currentPage = s.currentPage ∧
      (inputChange d t s).compileError = s.compileError) ∧
    ((t = none ∨ t = some "uploaded") → t ≠ s.selectedTemplate →
      (inputChange d t s).previewImageUrl = none ∧
      (inputChange d t s).pageCount = some 0 ∧
      (inputChange d t s).currentPage = 0 ∧
      (inputChange d t s).compileError = none) := by
  have hf := inputChange_frame d t s
  refine ⟨?_, ⟨hf.2.1, hf.1, hf.2.2.1⟩, ?_, ?_, ?_⟩
  · intro hg
    exact doCompile_guard_fail p s hg
  · intro ht hg
    obtain ⟨p1, p2, p3, p4, p5, p6, p7⟩ := inputChange_sameTemplate d t s ht
    exact ⟨p1, p2, inputChange_sameTemplate_guardFail_currentPage d t s ht hg, p3⟩
  · intro tv ht hu hd
    subst ht
    subst hd
    obtain ⟨p1, p2, p3, p4, p5, p6, p7⟩ := inputChange_validTemplate none tv s hu
    exact ⟨p1, p2, inputChange_validTemplate_guardFail_currentPage tv s hu, p3⟩
  · intro hinv hch
    obtain ⟨q1, q2, q3, q4, q5, q6, q7, q8, q9⟩ := inputChange_teardown d t s hinv hch
    exact ⟨q1, q3, q4, q5⟩

/-- Witness for C4 amended: editing the document to null with the
template unchanged leaves the visible state alone, and the Compile
primitive is a no-op at mount. -/
theorem autoCompile_guardNoop_witness :
    doCompile none initState = initState ∧
    (inputChange none (some "modern")
      (run [Event.inputChange (some 1) (some "modern"), Event.timerFire 0,
        Event.respondSuccess 1 none])).previewImageUrl =
      (run [Event.inputChange (some 1) (some "modern"), Event.timerFire 0,
        Event.respondSuccess 1 none]).previewImageUrl ∧
    (inputChange none (some "modern")
      (run [Event.inputChange (some 1) (some "modern"), Event.timerFire 0,
        Event.respondSuccess 1 none])).requests =
      (run [Event.inputChange (some 1) (some "modern"), Event.timerFire 0,
        Event.respondSuccess 1 none]).requests :=
  ⟨(autoCompile_guardNoop initState none none none).1 (by decide),
   ((autoCompile_guardNoop
      (run [Event.inputChange (some 1) (some "modern"), Event.timerFire 0,
        Event.respondSuccess 1 none]) none (some "modern") none).2.2.1
      (by decide) (by decide)).1,
   ((autoCompile_guardNoop
      (run [Event.inputChange (some 1) (some "modern"), Event.timerFire 0,
        Event.respondSuccess 1 none]) none (some "modern") none).2.1).1⟩

/-- C7: in every reachable session state the revoked resource ids are
pairwise distinct (no double free), at most one resource is live (every
created id is either revoked or the single current one), the number of
revocations is the number of successful installs minus one while a
resource is live and equal to it when none is, and the unmount cleanup
revokes the final live resource exactly once, bringing the revocation
count to the install count. -/
theorem autoCompile_resourceDiscipline (es : List Event) :
    (run es).released.Nodup ∧
    (∀ u, (run es).prevBlobUrl = some u →
      u ∉ (run es).released ∧
      (run es).released.length + 1 = (run es).nextResourceId) ∧
    ((run es).prevBlobUrl = none →
      (run es).released.length = (run es).nextResourceId) ∧
    (∀ v, v < (run es).nextResourceId →
      v ∈ (run es).released ∨ (run es).prevBlobUrl = some v) ∧
    (unmountStep (run es)).released.length = (run es).nextResourceId ∧
    (unmountStep (run es)).released.Nodup := by
  obtain ⟨h1, h2, h3, h4⟩ := Inv_run es
  obtain ⟨-, -, u3, -, -, -⟩ := unmountStep_spec (run es)
  cases hp : (run es).prevBlobUrl with
  | some u =>
    obtain ⟨r1, r2⟩ := h3 u hp
    have u4 : (unmountStep (run es)).released = (run es).released ++ [u] := by
      rw [u3, hp]
    refine ⟨?_, ?_, ?_, ?_, ?_, ?_⟩
    · rw [r2]
      exact List.nodup_range u
    · intro u2 hu2
      injection hu2 with hu5
      subst hu5
      exact ⟨by rw [r2]; simp, by rw [r2, r1]; simp⟩
    · intro hn
      exact absurd hn (by simp)
    · intro v hv
      rw [r1] at hv
      rcases Nat.lt_succ_iff_lt_or_eq.mp hv with hlt | heq
      · left
        rw [r2]
        exact List.mem_range.mpr hlt
      · right
        rw [heq]
    · rw [u4, r2, r1]
      simp
    · rw [u4, r2, ← List.range_succ]
      exact List.nodup_range (u + 1)
  | none =>
    have r2 := h4 hp
    have u4 : (unmountStep (run es)).released = (run es).released := by
      rw [u3, hp]
    refine ⟨?_, ?_, ?_, ?_, ?_, ?_⟩
    · rw [r2]
      exact List.nodup_range _
    · intro u2 hu2
      exact absurd hu2 (by simp)
    · intro _
      rw [r2]
      simp
    · intro v hv
      left
      rw [r2]
      exact List.mem_range.mpr hv
    · rw [u4, r2]
      simp
    · rw [u4, r2]
      exact List.nodup_range _

/-- Witness for C7 at a session with two installs and one live
resource: the live id is not among the revoked ones and the counts
match. -/
theorem autoCompile_resourceDiscipline_witness :
    (1 : Nat) ∉ (run [Event.inputChange (some 1) (some "modern"), Event.timerFire 0,
        Event.respondSuccess 1 none, Event.trigger,
        Event.respondSuccess 2 none]).released ∧
    (run [Event.inputChange (some 1) (some "modern"), Event.timerFire 0,
        Event.respondSuccess 1 none, Event.trigger,
        Event.respondSuccess 2 none]).released.length + 1 =
      (run [Event.inputChange (some 1) (some "modern"), Event.timerFire 0,
        Event.respondSuccess 1 none, Event.trigger,
        Event.respondSuccess 2 none]).nextResourceId :=
  (autoCompile_resourceDiscipline
    [Event.inputChange (some 1) (some "modern"), Event.timerFire 0,
      Event.respondSuccess 1 none, Event.trigger,
      Event.respondSuccess 2 none]).2.1 1 (by decide)

/-- C8: once the has-preview flag is set, no event bumps the sidebar
event counter, and the flag can only fall back to false through an
input change that clears the template; a successful current response
while the flag is still false emits the signal exactly once and sets
the flag. -/
theorem autoCompile_firstSuccessSignal (s : CState) :
    (∀ e, s.hasPreview = true →
      (step e s).sidebarEvents = s.sidebarEvents ∧
      ((step e s).hasPreview = true ∨
        ∃ d t, e = Event.inputChange d t ∧ (t = none ∨ t = some "uploaded"))) ∧
    (∀ r hdr, s.hasPreview = false → r = s.seq → r ∉ s.aborted →
      (handleSuccess r hdr s).sidebarEvents = s.sidebarEvents + 1 ∧
      (handleSuccess r hdr s).hasPreview = true) := by
  constructor
  · intro e hhp
    cases e with
    | inputChange d t =>
      simp only [step]
      refine ⟨(inputChange_frame d t s).2.2.2.2.2.1, ?_⟩
      by_cases ht : t = s.selectedTemplate
      · left
        rw [(inputChange_sameTemplate d t s ht).2.2.2.1, hhp]
      · cases t with
        | none => exact Or.inr ⟨d, none, rfl, Or.inl rfl⟩
        | some tv =>
          by_cases huv : tv = "uploaded"
          · subst huv
            exact Or.inr ⟨d, some "uploaded", rfl, Or.inr rfl⟩
          · left
            rw [(inputChange_validTemplate d tv s huv).2.2.2.1, hhp]
    | timerFire id =>
      simp only [step]
      unfold timerFire
      split
      · obtain ⟨-, -, -, f4, -, -, -, f8, -⟩ := doCompile_frame (some 0) (clearTimer s)
        refine ⟨by rw [f8]; simp [clearTimer], Or.inl ?_⟩
        rw [f4]
        simpa [clearTimer] using hhp
      · exact ⟨rfl, Or.inl hhp⟩
    | trigger =>
      simp only [step, triggerCompile]
      obtain ⟨-, -, -, f4, -, -, -, f8, -⟩ := doCompile_frame none (clearTimer s)
      refine ⟨by rw [f8]; simp [clearTimer], Or.inl ?_⟩
      rw [f4]
      simpa [clearTimer] using hhp
    | goTo p =>
      simp only [step, goToPage]
      obtain ⟨-, -, -, f4, -, -, -, f8, -⟩ :=
        doCompile_frame (some p) (clearTimer { s with currentPage := p })
      refine ⟨by rw [f8]; simp [clearTimer], Or.inl ?_⟩
      rw [f4]
      simpa [clearTimer] using hhp
    | respondSuccess r hdr =>
      simp only [step]
      by_cases hm : r ∈ s.aborted
      · have heq : handleSuccess r hdr s = applyFinal r s := by
          unfold handleSuccess
          rw [if_pos hm]
        rw [heq]
        obtain ⟨-, f2, -, -, -, -, -, -, f9, -⟩ := applyFinal_frame r s
        exact ⟨f9, Or.inl (by rw [f2, hhp])⟩
      · by_cases hr : r = s.seq
        · obtain ⟨-, -, -, -, c5, -, -, -, -, c10, -⟩ := handleSuccess_current r hdr s hr hm
          rw [hhp] at c10
          exact ⟨by rw [c10]; simp, Or.inl c5⟩
        · rw [handleSuccess_stale r hdr s hr]
          exact ⟨rfl, Or.inl hhp⟩
    | respondFailure r body msg =>
      simp only [step]
      by_cases hm : r ∈ s.aborted
      · have heq : handleFailure r body msg s = applyFinal r s := by
          unfold handleFailure
          rw [if_pos hm]
        rw [heq]
        obtain ⟨-, f2, -, -, -, -, -, -, f9, -⟩ := applyFinal_frame r s
        exact ⟨f9, Or.inl (by rw [f2, hhp])⟩
      · by_cases hr : r = s.seq
        · cases body with
          | none =>
            rw [handleFailure_current_noBody r msg s hr hm]
            exact ⟨rfl, Or.inl hhp⟩
          | some b =>
            rw [handleFailure_current_body r b msg s hr hm]
            exact ⟨rfl, Or.inl hhp⟩
        · rw [handleFailure_stale r body msg s hr]
          exact ⟨rfl, Or.inl hhp⟩
    | resolveErrRead r b =>
      simp only [step]
      by_cases hmem : (r, b) ∈ s.pendingErrReads
      · obtain ⟨-, -, -, -, -, m6, m7, -⟩ := resolveErrRead_mem r b s hmem
        exact ⟨m7, Or.inl (by rw [m6, hhp])⟩
      · rw [resolveErrRead_not_mem r b s hmem]
        exact ⟨rfl, Or.inl hhp⟩
  · intro r hdr hhp hr hm
    obtain ⟨-, -, -, -, c5, -, -, -, -, c10, -⟩ := handleSuccess_current r hdr s hr hm
    rw [hhp] at c10
    exact ⟨by rw [c10]; simp, c5⟩

/-- Witness for C8: the first success emits the signal; a second
success does not emit it again. -/
theorem autoCompile_firstSuccessSignal_witness :
    (handleSuccess 1 none
      (run [Event.inputChange (some 1) (some "modern"), Event.timerFire 0])).sidebarEvents =
      (run [Event.inputChange (some 1) (some "modern"), Event.timerFire 0]).sidebarEvents + 1 ∧
    (step (Event.respondSuccess 2 none)
      (run [Event.inputChange (some 1) (some "modern"), Event.timerFire 0,
        Event.respondSuccess 1 none, Event.trigger])).sidebarEvents =
      (run [Event.inputChange (some 1) (some "modern"), Event.timerFire 0,
        Event.respondSuccess 1 none, Event.trigger]).sidebarEvents :=
  ⟨((autoCompile_firstSuccessSignal
      (run [Event.inputChange (some 1) (some "modern"), Event.timerFire 0])).2
      1 none (by decide) (by decide) (by decide)).1,
   ((autoCompile_firstSuccessSignal
      (run [Event.inputChange (some 1) (some "modern"), Event.timerFire 0,
        Event.respondSuccess 1 none, Event.trigger])).1
      (Event.respondSuccess 2 none) (by decide)).1⟩

end CareerLift

namespace CareerLift

/-- Unpack one step of a well-formed burst. -/
theorem burstOk_cons (d : Nat) (t : String) (rest : List (Nat × String)) (s : CState)
    (h : burstOk s ((d, t) :: rest) = true) :
    t ≠ "uploaded" ∧
    (some d ≠ s.resumeData ∨ some t ≠ s.selectedTemplate) ∧
    burstOk (inputChange (some d) (some t) s) rest = true := by
  simp only [burstOk, Bool.and_eq_true] at h
  obtain ⟨⟨hu, hch⟩, hrest⟩ := h
  refine ⟨by simpa using hu, ?_, hrest⟩
  have hne2 : ¬(s.resumeData = some d ∧ s.selectedTemplate = some t) := by
    rintro ⟨e1, e2⟩
    rw [e1, e2] at hch
    simp at hch
  rcases not_and_or.mp hne2 with h2 | h2
  · exact Or.inl (fun he => h2 he.symm)
  · exact Or.inr (fun he => h2 he.symm)

/-- Invariant of a burst of guarded edits: no request is issued, the
sequence counter is untouched, the page is reset to 0, one timer is
armed, and the refs hold the last-supplied input. -/
theorem burst_inv (inputs : List (Nat × String)) :
    ∀ s : CState, inputs ≠ [] → burstOk s inputs = true →
    (runBurst s inputs).requests = s.requests ∧
    (runBurst s inputs).seq = s.seq ∧
    (runBurst s inputs).currentPage = 0 ∧
    (∃ tid, (runBurst s inputs).timerRef = some tid) ∧
    (∀ dl tl, inputs.getLast? = some (dl, tl) →
      (runBurst s inputs).resumeData = some dl ∧
      (runBurst s inputs).selectedTemplate = some tl ∧ tl ≠ "uploaded") := by
  induction inputs with
  | nil =>
    intro s hne _
    exact absurd rfl hne
  | cons dt rest ih =>
    intro s _ hok
    obtain ⟨d, t⟩ := dt
    obtain ⟨hu2, hch2, hrest⟩ := burstOk_cons d t rest s hok
    have hstep := inputChange_valid_changed d t s hu2 hch2
    cases rest with
    | nil =>
      have hrb : runBurst s [(d, t)] = inputChange (some d) (some t) s := rfl
      rw [hrb, hstep]
      refine ⟨rfl, rfl, rfl, ⟨s.nextTimerId, rfl⟩, ?_⟩
      intro dl tl hl
      injection hl with hl2
      injection hl2 with hd2 ht2
      subst hd2
      subst ht2
      exact ⟨rfl, rfl, hu2⟩
    | cons dt2 rest2 =>
      have hrb : runBurst s ((d, t) :: dt2 :: rest2) =
          runBurst (inputChange (some d) (some t) s) (dt2 :: rest2) := rfl
      rw [hrb]
      obtain ⟨i1, i2, i3, i4, i5⟩ := ih (inputChange (some d) (some t) s) (by simp) hrest
      refine ⟨?_, ?_, i3, i4, ?_⟩
      · rw [i1, hstep]
      · rw [i2, hstep]
      · intro dl tl hl
        exact i5 dl tl (by rwa [List.getLast?_cons_cons] at hl)

/-- Every prefix of a well-formed burst is well formed. -/
theorem burstOk_take (inputs : List (Nat × String)) :
    ∀ s : CState, ∀ k : Nat, burstOk s inputs = true →
    burstOk s (inputs.take k) = true := by
  induction inputs with
  | nil =>
    intro s k _
    simp [burstOk]
  | cons dt rest ih =>
    intro s k hok
    obtain ⟨d, t⟩ := dt
    obtain ⟨hu2, hch2, hrest⟩ := burstOk_cons d t rest s hok
    cases k with
    | zero => simp [burstOk]
    | succ k2 =>
      rw [List.take_succ_cons]
      simp only [burstOk, Bool.and_eq_true]
      refine ⟨⟨by simpa using hu2, ?_⟩, ih _ k2 hrest⟩
      have : ¬(s.resumeData = some d ∧ s.selectedTemplate = some t) := by
        rintro ⟨e1, e2⟩
        rcases hch2 with h2 | h2
        · exact h2 e1.symm
        · exact h2 e2.symm
      rcases not_and_or.mp this with h2 | h2 <;> simp [h2]

/-- C6: during a burst of guarded edits no request is issued and the
sequence counter is untouched; every nonempty prefix of the burst
leaves the page index at 0; after the burst exactly one timer is
armed, every other (discarded) timer id fires as a no-op, and firing
the armed timer issues exactly one request, for the last-supplied
document and page 0. -/
theorem autoCompile_debounce (s : CState) (inputs : List (Nat × String))
    (hne : inputs ≠ []) (hok : burstOk s inputs = true) :
    ((runBurst s inputs).requests = s.requests ∧
      (runBurst s inputs).seq = s.seq ∧
      (runBurst s inputs).currentPage = 0) ∧
    (∀ k, 1 ≤ k → k ≤ inputs.length →
      (runBurst s (inputs.take k)).requests = s.requests ∧
      (runBurst s (inputs.take k)).currentPage = 0) ∧
    (∃ tid, (runBurst s inputs).timerRef = some tid ∧
      (∀ j, j ≠ tid → timerFire j (runBurst s inputs) = runBurst s inputs) ∧
      (∀ dl tl, inputs.getLast? = some (dl, tl) →
        (timerFire tid (runBurst s inputs)).requests =
          s.requests ++ [⟨s.seq + 1, 0, dl, tl⟩] ∧
        (timerFire tid (runBurst s inputs)).seq = s.seq + 1)) := by
  obtain ⟨i1, i2, i3, ⟨tid, i4⟩, i5⟩ := burst_inv inputs s hne hok
  refine ⟨⟨i1, i2, i3⟩, ?_, tid, i4, ?_, ?_⟩
  · intro k hk1 hk2
    have hne2 : inputs.take k ≠ [] := by
      rw [ne_eq, List.take_eq_nil_iff]
      push_neg
      exact ⟨by omega, hne⟩
    obtain ⟨j1, -, j3, -, -⟩ := burst_inv (inputs.take k) s hne2 (burstOk_take inputs s k hok)
    exact ⟨j1, j3⟩
  · intro j hj
    unfold timerFire
    rw [if_neg]
    rw [i4]
    simp [hj]
    exact fun he => hj he.symm
  · intro dl tl hl
    obtain ⟨l1, l2, l3⟩ := i5 dl tl hl
    have hfire : timerFire tid (runBurst s inputs) =
        doCompile (some 0) (clearTimer (runBurst s inputs)) := by
      unfold timerFire
      rw [if_pos i4]
    obtain ⟨g1, -, -, -, g5, -⟩ := doCompile_guard_ok (some 0)
      (clearTimer (runBurst s inputs)) dl tl
      (by simpa [clearTimer] using l1) (by simpa [clearTimer] using l2) l3
    rw [hfire]
    constructor
    · rw [g5]
      simp [clearTimer, i1, i2]
    · rw [g1]
      simp [clearTimer, i2]

/-- Witness for C6: a three-edit burst issues nothing; firing the armed
timer issues exactly one request for the last document, page 0. -/
theorem autoCompile_debounce_witness :
    (runBurst initState [(1, "a"), (2, "a"), (3, "b")]).requests = [] ∧
    (timerFire 2 (runBurst initState [(1, "a"), (2, "a"), (3, "b")])).requests =
      [⟨1, 0, 3, "b"⟩] := by
  have h := autoCompile_debounce initState [(1, "a"), (2, "a"), (3, "b")]
    (by decide) (by decide)
  refine ⟨h.1.1, ?_⟩
  obtain ⟨tid, htid, hstale, hfire⟩ := h.2.2
  have ht2 : (runBurst initState [(1, "a"), (2, "a"), (3, "b")]).timerRef = some 2 := by
    decide
  rw [ht2] at htid
  injection htid with ht3
  subst ht3
  have hreq := (hfire 3 "b" rfl).1
  simpa using hreq

end CareerLift
